import Mathlib

/-!
Verification of the AdventureKit2 lesson sketch
`20_ChargingTheBatteries.ino` (battery-charging controller).

The sketch is a single polling loop over three global variables.  We embed
it shallowly:

* Arduino `float` arithmetic is modelled by exact rational arithmetic `ℚ`
  (the configuration constants and the derived coefficient are the exact
  values written in the source);
* pin levels `HIGH`/`LOW` are an inductive type `Level`;
* the analog reading returned by `analogRead` is a natural number
  (the ADC produces values in 0–1023);
* one execution of `loop()` is the pure function `loopStep`, taking the
  current global state together with this cycle's `analogRead` and
  `digitalRead` results, and returning the new state plus the observable
  effects of the cycle (telemetry lines printed, levels written to the
  LIGHT output pin).
-/

namespace ChargingTheBatteries

/-- Digital pin level, `HIGH` or `LOW`. -/
inductive Level where
  | HIGH : Level
  | LOW : Level
deriving DecidableEq, Repr

/-- `const uint8_t PRESSED = LOW;` — button input pin reads LOW when pressed. -/
def PRESSED : Level := Level.LOW

/-- `const uint8_t NOT_PRESSED = HIGH;` — button pin reads HIGH when not pressed. -/
def NOT_PRESSED : Level := Level.HIGH

/-- `const float LOW_BATTERY_LIMIT = 10;` -/
def LOW_BATTERY_LIMIT : ℚ := 10

/-- `const float HIGH_BATTERY_LIMIT = 90;` -/
def HIGH_BATTERY_LIMIT : ℚ := 90

/-- `const float START_CHARGING_AT = 85;` -/
def START_CHARGING_AT : ℚ := 85

/-- `const uint8_t SECONDS_TO_FULL = 30;` -/
def SECONDS_TO_FULL : ℚ := 30

/-- `const uint8_t LOOPS_PER_SECOND = 20;` -/
def LOOPS_PER_SECOND : ℚ := 20

/-- `const int AVERAGE_CHARGE_LEVEL = 530;` -/
def AVERAGE_CHARGE_LEVEL : ℚ := 530

/-- `const float PERCENTAGE_FROM_EMPTY_TO_FULL = HIGH_BATTERY_LIMIT - LOW_BATTERY_LIMIT;` -/
def PERCENTAGE_FROM_EMPTY_TO_FULL : ℚ := HIGH_BATTERY_LIMIT - LOW_BATTERY_LIMIT

/-- `const float PERCENTAGE_PER_SECOND = PERCENTAGE_FROM_EMPTY_TO_FULL / SECONDS_TO_FULL;` -/
def PERCENTAGE_PER_SECOND : ℚ := PERCENTAGE_FROM_EMPTY_TO_FULL / SECONDS_TO_FULL

/-- `const float PERCENTAGE_PER_LOOP = PERCENTAGE_PER_SECOND / LOOPS_PER_SECOND;` -/
def PERCENTAGE_PER_LOOP : ℚ := PERCENTAGE_PER_SECOND / LOOPS_PER_SECOND

/-- `const float CHARGE_PER_LIGHT_UNIT = PERCENTAGE_PER_LOOP / AVERAGE_CHARGE_LEVEL;` -/
def CHARGE_PER_LIGHT_UNIT : ℚ := PERCENTAGE_PER_LOOP / AVERAGE_CHARGE_LEVEL

/-- Arduino's `map` function on `long` integers:
`(x - in_min) * (out_max - out_min) / (in_max - in_min) + out_min`,
where `/` is C integer division (truncation toward zero, `Int.tdiv`). -/
def map (x in_min in_max out_min out_max : Int) : Int :=
  Int.tdiv ((x - in_min) * (out_max - out_min)) (in_max - in_min) + out_min

/-- The global mutable state of the sketch, together with the level most
recently written to the LIGHT output pin (`none` while the pin has never
been written by `digitalWrite`). -/
structure State where
  battery_charge_percentage : ℚ
  light_on : Bool
  previous_button_state : Level
  lightPin : Option Level
deriving DecidableEq, Repr

/-- The initial global state:
`battery_charge_percentage = LOW_BATTERY_LIMIT`, `light_on = false`,
`previous_button_state = NOT_PRESSED`, LIGHT pin never written. -/
def initialState : State :=
  { battery_charge_percentage := LOW_BATTERY_LIMIT
    light_on := false
    previous_button_state := NOT_PRESSED
    lightPin := none }

/-- One telemetry line: the four fields printed by the `Serial.print`
calls of a cycle
(`0`, `100`, `battery_charge_percentage`, `map(current_charging_rate, 0, 1023, 0, 100)`). -/
structure TelemetryLine where
  f1 : Int
  f2 : Int
  f3 : ℚ
  f4 : Int
deriving DecidableEq, Repr

/-- The observable effects of one execution of `loop()`: the telemetry
lines printed to `Serial` and the levels written to the LIGHT output pin,
in order. -/
structure CycleEffects where
  telemetry : List TelemetryLine
  lightWrites : List Level
deriving DecidableEq, Repr

/-- One execution of `loop()`.  `current_charging_rate` is this cycle's
`analogRead(CHARGING_RATE)` result (0–1023) and `button_state` this
cycle's `digitalRead(LIGHT_BUTTON)` result.  Mirrors the loop body:
accumulate charge, print the telemetry line, then edge-detect the button
and toggle the light on a press edge. -/
def loopStep (s : State) (current_charging_rate : ℕ) (button_state : Level) :
    State × CycleEffects :=
  let new_charge : ℚ := (current_charging_rate : ℚ) * CHARGE_PER_LIGHT_UNIT
  let battery : ℚ := s.battery_charge_percentage + new_charge
  let line : TelemetryLine :=
    { f1 := 0, f2 := 100, f3 := battery
      f4 := map (current_charging_rate : Int) 0 1023 0 100 }
  if button_state ≠ s.previous_button_state then
    if button_state = PRESSED then
      if s.light_on then
        ({ battery_charge_percentage := battery
           light_on := false
           previous_button_state := button_state
           lightPin := some Level.LOW },
         { telemetry := [line], lightWrites := [Level.LOW] })
      else
        ({ battery_charge_percentage := battery
           light_on := true
           previous_button_state := button_state
           lightPin := some Level.HIGH },
         { telemetry := [line], lightWrites := [Level.HIGH] })
    else
      ({ battery_charge_percentage := battery
         light_on := s.light_on
         previous_button_state := button_state
         lightPin := s.lightPin },
       { telemetry := [line], lightWrites := [] })
  else
    ({ battery_charge_percentage := battery
       light_on := s.light_on
       previous_button_state := s.previous_button_state
       lightPin := s.lightPin },
     { telemetry := [line], lightWrites := [] })

/-- Run the loop over a list of per-cycle inputs
(analog reading, button reading), returning the final state. -/
def run (s : State) : List (ℕ × Level) → State
  | [] => s
  | (r, b) :: rest => run (loopStep s r b).1 rest

/-- Run the loop over a list of analog readings with the button held at
`NOT_PRESSED` throughout (no button activity). -/
def runNoButton (s : State) (rs : List ℕ) : State :=
  run s (rs.map fun r => (r, NOT_PRESSED))

/-- Run the loop over a list of button readings (analog reading fixed at
0, which the light logic ignores), returning for each cycle whether the
light state toggled during that cycle. -/
def toggleFlags (s : State) : List Level → List Bool
  | [] => []
  | b :: rest =>
    let s' := (loopStep s 0 b).1
    (s'.light_on != s.light_on) :: toggleFlags s' rest

/-- A press edge: the button reading differs from the previous cycle's
stored reading and the new reading is `PRESSED`. -/
def pressEdge (previous current : Level) : Prop :=
  current ≠ previous ∧ current = PRESSED

instance (p c : Level) : Decidable (pressEdge p c) := by
  unfold pressEdge; infer_instance

/-- The starting state of the spec's end-to-end scenario:
`battery_charge_percentage = 10`, `light_on = false`. -/
def scenarioState : State :=
  { battery_charge_percentage := 10
    light_on := false
    previous_button_state := NOT_PRESSED
    lightPin := none }

/- Helper lemmas characterising one execution of `loop()`. -/

theorem loopStep_battery (s : State) (r : ℕ) (b : Level) :
    ((loopStep s r b).1).battery_charge_percentage
      = s.battery_charge_percentage + (r : ℚ) * CHARGE_PER_LIGHT_UNIT := by
  unfold loopStep
  split_ifs <;> rfl

theorem loopStep_prev_eq (s : State) (r : ℕ) (b : Level) :
    ((loopStep s r b).1).previous_button_state = b := by
  unfold loopStep
  split_ifs <;> simp_all

theorem loopStep_light (s : State) (r : ℕ) (b : Level) :
    ((loopStep s r b).1).light_on
      = if pressEdge s.previous_button_state b then !s.light_on else s.light_on := by
  unfold loopStep pressEdge
  split_ifs <;> simp_all

theorem loopStep_lightPin (s : State) (r : ℕ) (b : Level) :
    ((loopStep s r b).1).lightPin
      = if pressEdge s.previous_button_state b then
          some (if s.light_on then Level.LOW else Level.HIGH)
        else s.lightPin := by
  unfold loopStep pressEdge
  split_ifs <;> simp_all

theorem loopStep_lightWrites (s : State) (r : ℕ) (b : Level) :
    ((loopStep s r b).2).lightWrites
      = if pressEdge s.previous_button_state b then
          [if s.light_on then Level.LOW else Level.HIGH]
        else [] := by
  unfold loopStep pressEdge
  split_ifs <;> simp_all

theorem loopStep_telemetry (s : State) (r : ℕ) (b : Level) :
    ((loopStep s r b).2).telemetry
      = [{ f1 := 0, f2 := 100
           f3 := s.battery_charge_percentage + (r : ℚ) * CHARGE_PER_LIGHT_UNIT
           f4 := map (r : Int) 0 1023 0 100 }] := by
  unfold loopStep
  split_ifs <;> rfl

theorem runNoButton_cons (s : State) (r : ℕ) (rs : List ℕ) :
    runNoButton s (r :: rs) = runNoButton (loopStep s r NOT_PRESSED).1 rs := rfl

theorem runNoButton_battery (s : State) (rs : List ℕ) :
    (runNoButton s rs).battery_charge_percentage
      = s.battery_charge_percentage
          + (rs.map fun r : ℕ => (r : ℚ) * CHARGE_PER_LIGHT_UNIT).sum := by
  induction rs generalizing s with
  | nil => simp [runNoButton, run]
  | cons r rs ih =>
    rw [runNoButton_cons, ih, loopStep_battery]
    simp [add_assoc]

/-- Claim C1: for every sequence of sensor readings r1…rn, each in 0–1023,
and no button activity, after n loop cycles starting from the initial
state, `battery_charge_percentage` equals `LOW_BATTERY_LIMIT` plus the sum
over i of `r_i * CHARGE_PER_LIGHT_UNIT`, computed with the exact derived
coefficient. -/
theorem C1_battery_accumulation (rs : List ℕ) (h : ∀ r ∈ rs, r ≤ 1023) :
    (runNoButton initialState rs).battery_charge_percentage
      = LOW_BATTERY_LIMIT
          + (rs.map fun r : ℕ => (r : ℚ) * CHARGE_PER_LIGHT_UNIT).sum := by
  rw [runNoButton_battery]
  rfl

/-- Witness for C1 at the concrete reading sequence `[0, 530, 1023]`. -/
theorem C1_battery_accumulation_witness :
    (∀ r ∈ ([0, 530, 1023] : List ℕ), r ≤ 1023) ∧
    (runNoButton initialState [0, 530, 1023]).battery_charge_percentage
      = LOW_BATTERY_LIMIT
          + (([0, 530, 1023] : List ℕ).map fun r : ℕ => (r : ℚ) * CHARGE_PER_LIGHT_UNIT).sum :=
  ⟨by decide, C1_battery_accumulation [0, 530, 1023] (by decide)⟩

/-- Claim C2: the light state toggles exactly once per press edge (a
transition of the button reading from the stored previous value to
`PRESSED`) and never on a release edge; and the concrete reading sequence
`{NOT_PRESSED, PRESSED, PRESSED, NOT_PRESSED, PRESSED}` starting from the
initial state (`light_on = false`) toggles the light on cycles 2 and 5
only. -/
theorem C2_toggle_on_press_edges_only :
    (∀ (s : State) (r : ℕ) (b : Level),
        ((loopStep s r b).1).light_on ≠ s.light_on
          ↔ pressEdge s.previous_button_state b)
    ∧ toggleFlags initialState [NOT_PRESSED, PRESSED, PRESSED, NOT_PRESSED, PRESSED]
        = [false, true, false, false, true] := by
  constructor
  · intro s r b
    rw [loopStep_light]
    by_cases h : pressEdge s.previous_button_state b
    · simp only [h, if_true, iff_true]
      cases s.light_on <;> simp
    · simp [h]
  · rfl

/-- Claim C3 counterexample: in the end-to-end scenario (battery at 10,
light off, sensor reading 530) the telemetry line printed is NOT
`0, 100, 10.1333…, 52`: its fourth field is `map(530, 0, 1023, 0, 100) = 51`,
not 52. -/
theorem C3_telemetry_line_counterexample :
    ((loopStep scenarioState 530 NOT_PRESSED).2).telemetry
      ≠ [{ f1 := 0, f2 := 100, f3 := 152/15, f4 := 52 }] := by
  intro h
  have h4 : (((loopStep scenarioState 530 NOT_PRESSED).2).telemetry.map
      TelemetryLine.f4) = [52] := by rw [h]; rfl
  have h4' : (((loopStep scenarioState 530 NOT_PRESSED).2).telemetry.map
      TelemetryLine.f4) = [51] := by decide
  rw [h4'] at h4
  exact absurd h4 (by decide)

/-- Claim C3 as amended: starting from `battery_charge_percentage = 10` and
`light_on = false`, one loop cycle with sensor reading 530 increases
`battery_charge_percentage` by exactly `PERCENTAGE_PER_LOOP = (90−10)/30/20`
(to `152/15 = 10.1333…`), and the telemetry line printed that cycle is
`0, 100, 10.1333…, 51` (the last field being 530 rescaled to 0–100 with
integer truncation, which gives 51, not 52). -/
theorem C3_one_cycle_at_530_amended :
    ((loopStep scenarioState 530 NOT_PRESSED).1).battery_charge_percentage
        = 10 + PERCENTAGE_PER_LOOP
    ∧ PERCENTAGE_PER_LOOP = ((90 : ℚ) - 10) / 30 / 20
    ∧ ((loopStep scenarioState 530 NOT_PRESSED).2).telemetry
        = [{ f1 := 0, f2 := 100, f3 := 152/15, f4 := 51 }] := by
  refine ⟨?_, rfl, ?_⟩
  · rw [loopStep_battery]
    norm_num [scenarioState, CHARGE_PER_LIGHT_UNIT, PERCENTAGE_PER_LOOP,
      PERCENTAGE_PER_SECOND, PERCENTAGE_FROM_EMPTY_TO_FULL, HIGH_BATTERY_LIMIT,
      LOW_BATTERY_LIMIT, SECONDS_TO_FULL, LOOPS_PER_SECOND, AVERAGE_CHARGE_LEVEL]
  · rw [loopStep_telemetry]
    have h4 : map ((530 : ℕ) : Int) 0 1023 0 100 = 51 := by decide
    rw [h4]
    norm_num [scenarioState, CHARGE_PER_LIGHT_UNIT, PERCENTAGE_PER_LOOP,
      PERCENTAGE_PER_SECOND, PERCENTAGE_FROM_EMPTY_TO_FULL, HIGH_BATTERY_LIMIT,
      LOW_BATTERY_LIMIT, SECONDS_TO_FULL, LOOPS_PER_SECOND, AVERAGE_CHARGE_LEVEL]

/-- Claim C4: for every raw sensor reading in 0–1023, the fourth telemetry
field equals that reading linearly mapped from [0,1023] to [0,100] with
integer truncation (`tdiv (r * 100) 1023`), and the result lies in 0–100. -/
theorem C4_rescaled_telemetry_field (s : State) (r : ℕ) (b : Level)
    (h : r ≤ 1023) :
    ((loopStep s r b).2).telemetry.map TelemetryLine.f4
        = [Int.tdiv ((r : Int) * 100) 1023]
    ∧ 0 ≤ Int.tdiv ((r : Int) * 100) 1023
    ∧ Int.tdiv ((r : Int) * 100) 1023 ≤ 100 := by
  have hnn : (0 : Int) ≤ (r : Int) * 100 := by positivity
  have he : Int.tdiv ((r : Int) * 100) 1023 = ((r : Int) * 100) / 1023 :=
    Int.tdiv_eq_ediv hnn (by norm_num)
  refine ⟨?_, ?_, ?_⟩
  · rw [loopStep_telemetry]
    simp [map]
  · rw [he]
    positivity
  · rw [he]
    have hr : (r : Int) ≤ 1023 := by exact_mod_cast h
    omega

/-- Witness for C4 at the concrete input (initial state, reading 530,
button `NOT_PRESSED`). -/
theorem C4_rescaled_telemetry_field_witness :
    (530 : ℕ) ≤ 1023 ∧
    (((loopStep initialState 530 NOT_PRESSED).2).telemetry.map TelemetryLine.f4
        = [Int.tdiv (((530 : ℕ) : Int) * 100) 1023]
    ∧ 0 ≤ Int.tdiv (((530 : ℕ) : Int) * 100) 1023
    ∧ Int.tdiv (((530 : ℕ) : Int) * 100) 1023 ≤ 100) :=
  ⟨by decide, C4_rescaled_telemetry_field initialState 530 NOT_PRESSED (by decide)⟩

/-- Claim C5: the per-unit charge coefficient equals
`((HIGH_BATTERY_LIMIT − LOW_BATTERY_LIMIT) / SECONDS_TO_FULL) /
LOOPS_PER_SECOND / AVERAGE_CHARGE_LEVEL`, a constant derived from the
configuration values, and each cycle's increment to the battery percentage
equals the raw reading times this coefficient. -/
theorem C5_charge_coefficient :
    CHARGE_PER_LIGHT_UNIT
      = ((HIGH_BATTERY_LIMIT - LOW_BATTERY_LIMIT) / SECONDS_TO_FULL)
          / LOOPS_PER_SECOND / AVERAGE_CHARGE_LEVEL
    ∧ ∀ (s : State) (r : ℕ) (b : Level),
        ((loopStep s r b).1).battery_charge_percentage
          = s.battery_charge_percentage + (r : ℚ) * CHARGE_PER_LIGHT_UNIT :=
  ⟨rfl, loopStep_battery⟩

/-- Claim C6: at the end of every loop cycle — press edge, release edge,
or unchanged reading — `previous_button_state` equals the button value
read during that cycle. -/
theorem C6_previous_state_is_current_reading (s : State) (r : ℕ) (b : Level) :
    ((loopStep s r b).1).previous_button_state = b :=
  loopStep_prev_eq s r b

/-- Claim C7: toggling is idempotent over repeated readings: if two
consecutive cycles read the same button state (either one), the second
cycle does not toggle the light. -/
theorem C7_toggle_idempotent (s : State) (r1 r2 : ℕ) (b : Level) :
    ((loopStep (loopStep s r1 b).1 r2 b).1).light_on
      = ((loopStep s r1 b).1).light_on := by
  rw [loopStep_light, loopStep_prev_eq]
  simp [pressEdge]

/-- Claim C8: the effects of one loop cycle are exactly: one telemetry
line; one output-pin write on a press edge and none otherwise (so on
cycles with no press edge `light_on` and the LIGHT pin are unchanged);
and the state update of the global variables. -/
theorem C8_cycle_side_effects (s : State) (r : ℕ) (b : Level) :
    ((loopStep s r b).2).telemetry.length = 1
    ∧ ((loopStep s r b).2).lightWrites
        = (if pressEdge s.previous_button_state b then
            [if s.light_on then Level.LOW else Level.HIGH]
          else [])
    ∧ ((loopStep s r b).1).light_on
        = (if pressEdge s.previous_button_state b then !s.light_on else s.light_on)
    ∧ ((loopStep s r b).1).lightPin
        = (if pressEdge s.previous_button_state b then
            some (if s.light_on then Level.LOW else Level.HIGH)
          else s.lightPin) := by
  refine ⟨?_, loopStep_lightWrites s r b, loopStep_light s r b,
    loopStep_lightPin s r b⟩
  rw [loopStep_telemetry]
  rfl

/-- Claim C9: `battery_charge_percentage` is monotone: each cycle leaves
it at least as large as before, for every reading; and it is unclamped:
for every bound B some reading sequence (constant full light 1023) drives
it above B, in particular beyond the nominal 0–100 range. -/
theorem C9_battery_monotone_unclamped :
    (∀ (s : State) (r : ℕ) (b : Level),
        s.battery_charge_percentage
          ≤ ((loopStep s r b).1).battery_charge_percentage)
    ∧ ∀ B : ℚ, ∃ n : ℕ,
        B < (runNoButton initialState (List.replicate n 1023)).battery_charge_percentage := by
  have hc : (0 : ℚ) < 1023 * CHARGE_PER_LIGHT_UNIT := by
    norm_num [CHARGE_PER_LIGHT_UNIT, PERCENTAGE_PER_LOOP, PERCENTAGE_PER_SECOND,
      PERCENTAGE_FROM_EMPTY_TO_FULL, HIGH_BATTERY_LIMIT, LOW_BATTERY_LIMIT,
      SECONDS_TO_FULL, LOOPS_PER_SECOND, AVERAGE_CHARGE_LEVEL]
  constructor
  · intro s r b
    rw [loopStep_battery]
    have : (0 : ℚ) ≤ (r : ℚ) * CHARGE_PER_LIGHT_UNIT := by
      apply mul_nonneg (by positivity)
      nlinarith
    linarith
  · intro B
    obtain ⟨n, hn⟩ := exists_nat_gt ((B - LOW_BATTERY_LIMIT) / (1023 * CHARGE_PER_LIGHT_UNIT))
    refine ⟨n, ?_⟩
    rw [runNoButton_battery, List.map_replicate, List.sum_replicate, nsmul_eq_mul]
    have hB : B - LOW_BATTERY_LIMIT < (n : ℚ) * (1023 * CHARGE_PER_LIGHT_UNIT) :=
      (div_lt_iff₀ hc).mp hn
    have hinit : initialState.battery_charge_percentage = LOW_BATTERY_LIMIT := rfl
    rw [hinit]
    push_cast
    linarith

/-- Claim C10: after every loop cycle sequence from the initial state,
`light_on` is true exactly when the most recent `digitalWrite` to the
LIGHT pin was HIGH (the pin is never written while `light_on` still has
its initial value `false`); and in every single cycle, the light state
changes exactly when the pin is written. -/
theorem C10_light_matches_pin (inputs : List (ℕ × Level)) :
    (((run initialState inputs).light_on = true)
        ↔ (run initialState inputs).lightPin = some Level.HIGH)
    ∧ ∀ (s : State) (r : ℕ) (b : Level),
        (((loopStep s r b).1).light_on ≠ s.light_on
          ↔ ((loopStep s r b).2).lightWrites ≠ []) := by
  constructor
  · have key : ∀ (l : List (ℕ × Level)) (s : State),
        (s.light_on = true ↔ s.lightPin = some Level.HIGH) →
        ((run s l).light_on = true ↔ (run s l).lightPin = some Level.HIGH) := by
      intro l
      induction l with
      | nil => intro s h; exact h
      | cons p rest ih =>
        intro s h
        apply ih
        rw [loopStep_light, loopStep_lightPin]
        by_cases hp : pressEdge s.previous_button_state p.2
        · simp only [hp, if_true]
          cases hl : s.light_on <;> simp
        · simp only [hp, if_false, ite_false]
          exact h
    exact key inputs initialState (by simp [initialState])
  · intro s r b
    rw [loopStep_light, loopStep_lightWrites]
    by_cases hp : pressEdge s.previous_button_state b
    · simp only [hp, if_true, iff_true]
      constructor
      · intro _; simp
      · intro _; cases s.light_on <;> simp
    · simp [hp]

end ChargingTheBatteries
